import Mathlib

/-!
Verification development for the CodeGPT Deep Graph MCP server
(single source file src/dist/index.d.ts, referred to below as index.ts).

The development shallowly embeds the parts of the program that the claims
are about:

1. the process-wide mutable configuration record (the config object from
   config.js, whose fields CODEGPT_API_KEY, CODEGPT_ORG_ID,
   CODEGPT_GRAPH_ID, CODEGPT_REPO_URL, IS_MULTI_REPO, REPO_LIST are the
   only ones index.ts reads or writes; string fields are modelled as
   String with the empty string standing for the absent value, which is
   adequate because the code only ever tests them for JS truthiness);

2. the CLI-argument processing block of createServer (index.ts lines
   150 to 165);

3. registerTools (index.ts lines 188 to 692), abstracted to the list of
   registered tool names plus one Lean function per tool handler body.
   A handler takes its required parameter and the outcome of the single
   remote fetch (an external collaborator) and returns either a thrown
   local error or a result envelope;

4. the /mcp request handler of startHttpServer (index.ts lines 714 to
   817) together with the transport callbacks (onsessioninitialized at
   lines 760 to 763, onclose at lines 787 to 794), as a step function on
   a server state consisting of the configuration, the session table and
   a transport-allocation counter.  Asynchronous callback firings are
   separate events of the step relation, so the window between transport
   creation and table insertion is explicit in the model.
-/

namespace Mcp

-- ===========================================================================
-- JS value fragment and truthiness
-- ===========================================================================

/-- Fragment of JS runtime values relevant to the tool handlers: the
designated content field of a parsed JSON response body is either absent
(undefined), null, or a string. -/
inductive JsValue where
  | undef
  | nullv
  | str (s : String)
deriving DecidableEq

/-- JS template-literal interpolation of a value, as the get-code handler
does in index.ts line 294 and every catch block does for the error. -/
def jsTemplate : JsValue → String
  | .undef => "undefined"
  | .nullv => "null"
  | .str s => s

/-- JS truthiness on the value fragment: undefined, null and the empty
string are falsy. -/
def jsFalsy : JsValue → Bool
  | .undef => true
  | .nullv => true
  | .str s => s == ""

/-- JS truthiness of a possibly-undefined string (handler parameters,
config fields, query parameters): undefined and the empty string are
falsy. -/
def strFalsy : Option String → Bool
  | none => true
  | some s => s == ""

/-- Models the JS pattern (s || fb) for a string s: fb when s is empty. -/
def strOrElse (s fb : String) : String := if s = "" then fb else s

-- ===========================================================================
-- Configuration record (config.js as used by index.ts)
-- ===========================================================================

/-- The process-wide mutable configuration object imported from config.js.
Only the fields read or written by index.ts are modelled; absent string
values are the empty string (see the file header). -/
structure Config where
  CODEGPT_API_KEY : String
  CODEGPT_ORG_ID : String
  CODEGPT_GRAPH_ID : String
  CODEGPT_REPO_URL : String
  IS_MULTI_REPO : Bool
  REPO_LIST : List String
deriving DecidableEq

/-- Models the JS expression (arg.includes c) for a single character, used
with the slash character at index.ts line 152. -/
def includesChar (a : String) (c : Char) : Bool := a.toList.contains c

/-- Models the JS expression (arg.startsWith pre) for the three-character
prefix used at index.ts lines 152 to 153. -/
def startsWith3 (a : String) (c1 c2 c3 : Char) : Bool :=
  match a.toList with
  | d1 :: d2 :: d3 :: _ => d1 == c1 && d2 == c2 && d3 == c3
  | _ => false

/-- The repo-url filter predicate of index.ts line 152: the argument
contains a slash and does not start with sk-. -/
def isRepoArg (a : String) : Bool :=
  includesChar a '/' && !(startsWith3 a 's' 'k' '-')

/-- The api-key predicate of index.ts line 153: the argument starts
with sk-. -/
def isApiKeyArg (a : String) : Bool := startsWith3 a 's' 'k' '-'

/-- The CLI-argument processing block of createServer, index.ts lines
150 to 165 (run in stdio mode with no Smithery user config): arguments
containing a slash and not starting with sk- are repository urls, an
argument starting with sk- is the api key; two or more repository urls
activate multi-repo mode, exactly one sets the single repository url. -/
def processCliArgs (cfg : Config) (args : List String) : Config :=
  let repoUrls := args.filter isRepoArg
  let apiKey := args.find? isApiKeyArg
  if repoUrls.length > 1 then
    { cfg with
        IS_MULTI_REPO := true
        REPO_LIST := repoUrls
        CODEGPT_API_KEY := apiKey.getD cfg.CODEGPT_API_KEY }
  else if repoUrls.length = 1 then
    { cfg with
        CODEGPT_REPO_URL := repoUrls.headD ""
        CODEGPT_API_KEY := apiKey.getD cfg.CODEGPT_API_KEY }
  else
    match apiKey with
    | some k => { cfg with CODEGPT_API_KEY := k }
    | none => cfg

-- ===========================================================================
-- Tool registration (registerTools, index.ts lines 188 to 692)
-- ===========================================================================

/-- The names of the tools registerTools binds onto a server, in source
order: list-graphs is registered only under the condition of index.ts
line 190 (no graph id, no repository url, no multi-repo mode); the other
six are always registered. -/
def registerTools (cfg : Config) : List String :=
  (if cfg.CODEGPT_GRAPH_ID = "" ∧ cfg.CODEGPT_REPO_URL = "" ∧
      cfg.IS_MULTI_REPO = false
   then ["list-graphs"] else []) ++
  ["get-code", "find-direct-connections", "nodes-semantic-search",
   "docs-semantic-search", "folder-tree-structure",
   "get-usage-dependency-links"]

-- ===========================================================================
-- Tool handlers
-- ===========================================================================

/-- Outcome of the single fetch a handler performs against the remote
graph API (an external collaborator): either the parsed JSON body (for
the handlers that destructure it, the designated field, undefined when
absent), or a failure (network error, rejected fetch, or a body that is
not JSON), carrying the JS string representation of the thrown error. -/
inductive RemoteOutcome where
  | ok (v : JsValue)
  | err (e : String)
deriving DecidableEq

/-- The uniform result envelope: every handler returns
content = [ ( type = text, text ) ], so only the text is modelled. -/
structure ToolResult where
  text : String
deriving DecidableEq

/-- What a tool handler invocation produces: a synchronously thrown local
error, or a successful result envelope. -/
inductive HandlerOutcome where
  | thrown (msg : String)
  | result (r : ToolResult)
deriving DecidableEq

/-- Models (v || fb) when v then becomes a text field: the content value
itself when truthy, fb when falsy. Used by the handlers of index.ts
lines 376, 449, 593 and 675. -/
def textOrFallback (v : JsValue) (fb : String) : String :=
  if jsFalsy v then fb else jsTemplate v

/-- Models the interpolate-then-default pattern of index.ts line 294:
the template string of v when nonempty, fb otherwise. Note the
interpolation makes undefined and null truthy. -/
def templateOrFallback (v : JsValue) (fb : String) : String :=
  strOrElse (jsTemplate v) fb

/-- One escaped character of a JSON string literal (models the JS
builtin JSON.stringify on the string fragment; control characters other
than these are not needed by any theorem). -/
def jsonQuoteChar (c : Char) : String :=
  if c = '\"' then "\\\""
  else if c = '\\' then "\\\\"
  else String.singleton c

/-- JSON string literal for s (models JSON.stringify on strings). -/
def jsonQuote (s : String) : String :=
  "\"" ++ String.join (s.toList.map jsonQuoteChar) ++ "\""

/-- Models the JS builtin JSON.stringify on the value fragment:
undefined stringifies to undefined (absent), null to the text null,
strings to quoted literals. -/
def jsonStringify : JsValue → Option String
  | .undef => none
  | .nullv => some "null"
  | .str s => some (jsonQuote s)

/-- Models (JSON.stringify v || fb) as in index.ts lines 214 and 522. -/
def stringifyOrFallback (v : JsValue) (fb : String) : String :=
  match jsonStringify v with
  | none => fb
  | some s => strOrElse s fb

/-- The get-code handler body, index.ts lines 251 to 309: throws when the
required name is falsy, otherwise fetches once; on success the text is
the interpolated content field with the fallback of line 294, on failure
the interpolated error. -/
def getCodeHandler (name : Option String) (remote : RemoteOutcome) :
    HandlerOutcome :=
  if strFalsy name then .thrown "name is required"
  else
    match remote with
    | .ok content => .result ⟨templateOrFallback content "No response text available"⟩
    | .err e => .result ⟨e⟩

/-- The find-direct-connections handler body, index.ts lines 330 to 391. -/
def findDirectConnectionsHandler (name : Option String)
    (remote : RemoteOutcome) : HandlerOutcome :=
  if strFalsy name then .thrown "name is required"
  else
    match remote with
    | .ok content => .result ⟨textOrFallback content "No response data available"⟩
    | .err e => .result ⟨e⟩

/-- The nodes-semantic-search handler body, index.ts lines 406 to 464. -/
def nodesSemanticSearchHandler (query : Option String)
    (remote : RemoteOutcome) : HandlerOutcome :=
  if strFalsy query then .thrown "query is required"
  else
    match remote with
    | .ok content => .result ⟨textOrFallback content "No response data available"⟩
    | .err e => .result ⟨e⟩

/-- The docs-semantic-search handler body, index.ts lines 479 to 537: it
stringifies the whole parsed body rather than a content field. -/
def docsSemanticSearchHandler (query : Option String)
    (remote : RemoteOutcome) : HandlerOutcome :=
  if strFalsy query then .thrown "query is required"
  else
    match remote with
    | .ok data => .result ⟨stringifyOrFallback data "No response data available"⟩
    | .err e => .result ⟨e⟩

/-- The folder-tree-structure handler body, index.ts lines 552 to 608:
no required parameter. -/
def folderTreeStructureHandler (remote : RemoteOutcome) : HandlerOutcome :=
  match remote with
  | .ok content => .result ⟨textOrFallback content "No response data available"⟩
  | .err e => .result ⟨e⟩

/-- The get-usage-dependency-links handler body, index.ts lines
629 to 690. -/
def getUsageDependencyLinksHandler (name : Option String)
    (remote : RemoteOutcome) : HandlerOutcome :=
  if strFalsy name then .thrown "name is required"
  else
    match remote with
    | .ok content => .result ⟨textOrFallback content "No response data available"⟩
    | .err e => .result ⟨e⟩

/-- The list-graphs handler body, index.ts lines 195 to 229. -/
def listGraphsHandler (remote : RemoteOutcome) : HandlerOutcome :=
  match remote with
  | .ok data => .result ⟨stringifyOrFallback data "No graphs available"⟩
  | .err e => .result ⟨"Error fetching graphs: " ++ e⟩

-- ===========================================================================
-- HTTP session multiplexer (startHttpServer, index.ts lines 698 to 835)
-- ===========================================================================

/-- HTTP method of a request to the /mcp endpoint. -/
inductive HMethod where
  | get
  | post
  | delete
  | other
deriving DecidableEq

/-- A request to the /mcp endpoint, as the handler of index.ts lines
714 to 817 observes it: the method, the mcp-session-id header, the four
config override query parameters, and the behaviour of the delegated
transport (handleOk is true when the awaited handleRequest call of the
transport resolves, false when it rejects; the transport is an external
collaborator, so its behaviour is an input of the model). -/
structure McpRequest where
  method : HMethod
  sessionId : Option String
  qApiKey : Option String
  qOrgId : Option String
  qGraphId : Option String
  qRepoUrl : Option String
  handleOk : Bool
deriving DecidableEq

/-- State of the HTTP server: the process-wide configuration, the session
table (the transports Map of index.ts line 711, keyed by session id, with
transports identified by allocation number), and the allocation counter
for fresh transports. -/
structure ServerState where
  config : Config
  transports : List (String × Nat)
  nextT : Nat
deriving DecidableEq

/-- What the /mcp handler does with one request, as observable at the
HTTP boundary: a 400 for a missing api key, a 400 for an invalid or
missing session id, a 405, delegation to an existing transport, or
creation of a fresh transport that then handles the request.  The ok
flag records whether the delegated handleRequest call resolved. -/
inductive McpResponse where
  | apiKeyRequired
  | invalidSession
  | methodNotAllowed
  | delegated (t : Nat) (ok : Bool)
  | newTransport (t : Nat) (ok : Bool)
deriving DecidableEq

/-- One query-parameter override, index.ts lines 716 to 727: the value is
written over the config field only when it is present and truthy. -/
def applyQ : Option String → String → String
  | none, cur => cur
  | some s, cur => if s = "" then cur else s

/-- The four config overrides a request applies before anything else,
index.ts lines 716 to 727. -/
def overrideConfig (cfg : Config) (r : McpRequest) : Config :=
  { cfg with
      CODEGPT_API_KEY := applyQ r.qApiKey cfg.CODEGPT_API_KEY
      CODEGPT_ORG_ID := applyQ r.qOrgId cfg.CODEGPT_ORG_ID
      CODEGPT_GRAPH_ID := applyQ r.qGraphId cfg.CODEGPT_GRAPH_ID
      CODEGPT_REPO_URL := applyQ r.qRepoUrl cfg.CODEGPT_REPO_URL }

/-- The api key in force for a request, after its overrides. -/
def effApiKey (st : ServerState) (r : McpRequest) : String :=
  applyQ r.qApiKey st.config.CODEGPT_API_KEY

/-- Lookup in the session table (models Map.get on the transports map). -/
def tblLookup : List (String × Nat) → String → Option Nat
  | [], _ => none
  | p :: rest, k => if p.1 = k then some p.2 else tblLookup rest k

/-- Models Map.set with key k and value v. -/
def mapSet (tbl : List (String × Nat)) (k : String) (v : Nat) :
    List (String × Nat) :=
  (k, v) :: tbl.filter (fun p => p.1 != k)

/-- Models Map.delete of key k. -/
def mapDelete (tbl : List (String × Nat)) (k : String) :
    List (String × Nat) :=
  tbl.filter (fun p => p.1 != k)

/-- The recognition test (sessionId && transports.has sessionId) of
index.ts lines 741, 752 and 805: an absent or empty header is falsy and
never recognized. -/
def sessionLookup (tbl : List (String × Nat)) : Option String → Option Nat
  | none => none
  | some s => if s = "" then none else tblLookup tbl s

/-- Routing after the credential gate, index.ts lines 737 to 816:
GET delegates to a recognized session or 400s; POST delegates to a
recognized session, otherwise creates a fresh transport (the table is
not touched here: insertion happens only in the initialization callback,
lines 760 to 763) and hands it the request; DELETE delegates to a
recognized session and then removes its entry, a step that is skipped
when the awaited delegation rejects, or 400s; anything else 405s. -/
def routeMcp (st : ServerState) (r : McpRequest) : ServerState × McpResponse :=
  match r.method with
  | .get =>
      match sessionLookup st.transports r.sessionId with
      | some t => (st, .delegated t r.handleOk)
      | none => (st, .invalidSession)
  | .post =>
      match sessionLookup st.transports r.sessionId with
      | some t => (st, .delegated t r.handleOk)
      | none =>
          ({ st with nextT := st.nextT + 1 }, .newTransport st.nextT r.handleOk)
  | .delete =>
      match r.sessionId with
      | some s =>
          if s = "" then (st, .invalidSession)
          else
            match tblLookup st.transports s with
            | some t =>
                if r.handleOk then
                  ({ st with transports := mapDelete st.transports s },
                   .delegated t true)
                else (st, .delegated t false)
            | none => (st, .invalidSession)
      | none => (st, .invalidSession)
  | .other => (st, .methodNotAllowed)

/-- The whole /mcp request handler, index.ts lines 714 to 817: apply the
query overrides, check the credential gate, then route. -/
def handleMcp (st : ServerState) (r : McpRequest) : ServerState × McpResponse :=
  let st1 : ServerState := { st with config := overrideConfig st.config r }
  if st1.config.CODEGPT_API_KEY = "" then (st1, .apiKeyRequired)
  else routeMcp st1 r

/-- The events the server reacts to: an HTTP request, the transport
initialization callback of index.ts lines 760 to 763 firing with the
freshly minted session id for transport t, and the transport close
callback of lines 787 to 794 firing for transport t. -/
inductive SrvEvent where
  | http (r : McpRequest)
  | sessionInit (t : Nat) (s : String)
  | closed (t : Nat)

/-- Step function over server events.  The initialization callback
inserts the fresh id into the table (index.ts line 761); the close
callback looks the transport up by value and, when it finds a truthy
key, deletes it (lines 788 to 793). -/
def stepEv (st : ServerState) : SrvEvent → ServerState × Option McpResponse
  | .http r =>
      let p := handleMcp st r
      (p.1, some p.2)
  | .sessionInit t s =>
      ({ st with transports := mapSet st.transports s t }, none)
  | .closed t =>
      match st.transports.find? (fun p => p.2 == t) with
      | some p =>
          if p.1 = "" then (st, none)
          else ({ st with transports := mapDelete st.transports p.1 }, none)
      | none => (st, none)

-- ===========================================================================
-- Helper lemmas
-- ===========================================================================

/-- The credential gate fails exactly on the overridden api key, so a
failing gate short-circuits the handler, index.ts lines 730 to 735. -/
theorem handleMcp_gate_closed (st : ServerState) (r : McpRequest)
    (h : effApiKey st r = "") :
    handleMcp st r =
      ({ st with config := overrideConfig st.config r },
       McpResponse.apiKeyRequired) := by
  have h2 : (overrideConfig st.config r).CODEGPT_API_KEY = "" := h
  simp [handleMcp, h2]

/-- With the gate open, the handler is the router on the overridden
state. -/
theorem handleMcp_gate_open (st : ServerState) (r : McpRequest)
    (h : effApiKey st r ≠ "") :
    handleMcp st r =
      routeMcp { st with config := overrideConfig st.config r } r := by
  have h2 : ¬((overrideConfig st.config r).CODEGPT_API_KEY = "") := h
  simp [handleMcp, h2]

/-- A recognized session id is a present, nonempty header that is a key
of the table. -/
theorem sessionLookup_some {tbl : List (String × Nat)} {sid : Option String}
    {t : Nat} (h : sessionLookup tbl sid = some t) :
    ∃ s, sid = some s ∧ s ≠ "" ∧ tblLookup tbl s = some t := by
  cases sid with
  | none => simp [sessionLookup] at h
  | some s =>
      by_cases hs : s = ""
      · simp [sessionLookup, hs] at h
      · exact ⟨s, rfl, hs, by simpa [sessionLookup, hs] using h⟩

/-- Routing never changes the configuration. -/
theorem routeMcp_config (st : ServerState) (r : McpRequest) :
    (routeMcp st r).1.config = st.config := by
  obtain ⟨m, sid, qa, qo, qg, qr, ok⟩ := r
  cases m with
  | get => cases h : sessionLookup st.transports sid <;> simp [routeMcp, h]
  | post => cases h : sessionLookup st.transports sid <;> simp [routeMcp, h]
  | delete =>
      cases sid with
      | none => simp [routeMcp]
      | some s =>
          by_cases hs : s = ""
          · simp [routeMcp, hs]
          · cases h : tblLookup st.transports s with
            | none => simp [routeMcp, hs, h]
            | some t => cases ok <;> simp [routeMcp, hs, h]
  | other => simp [routeMcp]

/-- Routing never answers with the credential-gate response. -/
theorem routeMcp_ne_apiKeyRequired (st : ServerState) (r : McpRequest) :
    (routeMcp st r).2 ≠ McpResponse.apiKeyRequired := by
  obtain ⟨m, sid, qa, qo, qg, qr, ok⟩ := r
  cases m with
  | get => cases h : sessionLookup st.transports sid <;> simp [routeMcp, h]
  | post => cases h : sessionLookup st.transports sid <;> simp [routeMcp, h]
  | delete =>
      cases sid with
      | none => simp [routeMcp]
      | some s =>
          by_cases hs : s = ""
          · simp [routeMcp, hs]
          · cases h : tblLookup st.transports s with
            | none => simp [routeMcp, hs, h]
            | some t => cases ok <;> simp [routeMcp, hs, h]
  | other => simp [routeMcp]

/-- Requests bearing a recognized session id are delegated to the
transport the table maps the id to, whatever the method. -/
theorem routeMcp_recognized (st : ServerState) (r : McpRequest) (t : Nat)
    (hl : sessionLookup st.transports r.sessionId = some t)
    (hm : r.method ≠ HMethod.other) :
    (routeMcp st r).2 = McpResponse.delegated t r.handleOk := by
  obtain ⟨s, hsid, hs, htl⟩ := sessionLookup_some hl
  cases hmm : r.method with
  | get => simp [routeMcp, hmm, hl]
  | post => simp [routeMcp, hmm, hl]
  | delete => cases hok : r.handleOk <;> simp [routeMcp, hmm, hsid, hs, htl, hok]
  | other => exact absurd hmm hm

/-- The handler persists exactly the overridden configuration into the
resulting state. -/
theorem handleMcp_config (st : ServerState) (r : McpRequest) :
    (handleMcp st r).1.config = overrideConfig st.config r := by
  by_cases h : effApiKey st r = ""
  · rw [handleMcp_gate_closed st r h]
  · rw [handleMcp_gate_open st r h]
    exact routeMcp_config _ _

-- ===========================================================================
-- Claim theorems
-- ===========================================================================

/-- C1: with the api key configured, a POST carrying no recognized
session id allocates a fresh transport and leaves the session table
untouched (the entry is inserted only when the transport initialization
callback fires with the fresh id); after that callback has fired, any
GET, POST or DELETE bearing the fresh id is delegated to that same
transport, never answered by a freshly created one (the response
constructor is delegated, not newTransport). -/
theorem c1_session_routing :
    (∀ st r, r.method = HMethod.post →
        sessionLookup st.transports r.sessionId = none →
        effApiKey st r ≠ "" →
        (handleMcp st r).1.transports = st.transports ∧
        (handleMcp st r).1.nextT = st.nextT + 1 ∧
        (handleMcp st r).2 = McpResponse.newTransport st.nextT r.handleOk) ∧
    (∀ st t s, s ≠ "" →
        sessionLookup (stepEv st (SrvEvent.sessionInit t s)).1.transports
          (some s) = some t) ∧
    (∀ st r t, sessionLookup st.transports r.sessionId = some t →
        effApiKey st r ≠ "" →
        r.method ≠ HMethod.other →
        (handleMcp st r).2 = McpResponse.delegated t r.handleOk) := by
  refine ⟨?_, ?_, ?_⟩
  · intro st r hm hl hk
    rw [handleMcp_gate_open st r hk]
    refine ⟨?_, ?_, ?_⟩ <;> simp [routeMcp, hm, hl]
  · intro st t s hs
    simp [stepEv, mapSet, sessionLookup, tblLookup, hs]
  · intro st r t hl hk hm
    rw [handleMcp_gate_open st r hk]
    exact routeMcp_recognized _ r t hl hm

/-- Witness for C1: in a server with the api key set, a fresh POST is
answered by transport 0 while the table stays empty; firing the
initialization callback for transport 0 with id sid makes sid resolve to
transport 0; and a GET bearing a recognized id is delegated to the mapped
transport. -/
theorem c1_session_routing_witness :
    (handleMcp ⟨⟨"k", "", "", "", false, []⟩, [], 0⟩
        ⟨HMethod.post, none, none, none, none, none, true⟩).1.transports = [] ∧
    sessionLookup (stepEv ⟨⟨"k", "", "", "", false, []⟩, [], 1⟩
        (SrvEvent.sessionInit 0 ("sid"))).1.transports (some ("sid")) = some 0 ∧
    (handleMcp ⟨⟨"k", "", "", "", false, []⟩, [("sid", 0)], 1⟩
        ⟨HMethod.get, some ("sid"), none, none, none, none, true⟩).2 =
      McpResponse.delegated 0 true :=
  ⟨(c1_session_routing.1 ⟨⟨"k", "", "", "", false, []⟩, [], 0⟩
      ⟨HMethod.post, none, none, none, none, none, true⟩ rfl rfl (by decide)).1,
   c1_session_routing.2.1 ⟨⟨"k", "", "", "", false, []⟩, [], 1⟩ 0 ("sid") (by decide),
   c1_session_routing.2.2 ⟨⟨"k", "", "", "", false, []⟩, [("sid", 0)], 1⟩
      ⟨HMethod.get, some ("sid"), none, none, none, none, true⟩ 0
      (by decide) (by decide) (by decide)⟩

/-- C2: whenever the configuration, after the overrides carried by the
request have been applied, has no api key, the request is answered with
the 400 api-key-required error whatever its method and session id, and
the session table and the transport allocator are untouched. -/
theorem c2_missing_api_key :
    ∀ st r, effApiKey st r = "" →
      (handleMcp st r).2 = McpResponse.apiKeyRequired ∧
      (handleMcp st r).1.transports = st.transports ∧
      (handleMcp st r).1.nextT = st.nextT := by
  intro st r h
  rw [handleMcp_gate_closed st r h]
  exact ⟨rfl, rfl, rfl⟩

/-- Witness for C2: a DELETE bearing a valid session id on a server with
no api key is refused by the gate. -/
theorem c2_missing_api_key_witness :
    (handleMcp ⟨⟨"", "", "", "", false, []⟩, [("sid", 0)], 1⟩
        ⟨HMethod.delete, some ("sid"), none, none, none, none, true⟩).2 =
      McpResponse.apiKeyRequired :=
  (c2_missing_api_key _ _ (by decide)).1

/-- C3 counterexample: a DELETE whose session id is in the table is
delegated to the mapped transport, but when the awaited delegation
rejects (handleOk false) the subsequent removal statement is never
reached, so the table entry survives — removal is not unconditional. -/
theorem c3_counterexample :
    (handleMcp ⟨⟨"k", "", "", "", false, []⟩, [("sid", 3)], 5⟩
        ⟨HMethod.delete, some ("sid"), none, none, none, none, false⟩).2 =
      McpResponse.delegated 3 false ∧
    (handleMcp ⟨⟨"k", "", "", "", false, []⟩, [("sid", 3)], 5⟩
        ⟨HMethod.delete, some ("sid"), none, none, none, none, false⟩).1.transports =
      [("sid", 3)] := by
  decide

/-- C3 amended: a DELETE with a recognized session id is delegated to
that transport; the table entry is then removed when the delegation
resolves, but when the delegation rejects the removal is skipped and the
entry remains. -/
theorem c3_delete_removal :
    ∀ st r s t, r.method = HMethod.delete → r.sessionId = some s →
      sessionLookup st.transports (some s) = some t →
      effApiKey st r ≠ "" →
      (handleMcp st r).2 = McpResponse.delegated t r.handleOk ∧
      (r.handleOk = true →
        (handleMcp st r).1.transports = mapDelete st.transports s) ∧
      (r.handleOk = false → (handleMcp st r).1.transports = st.transports) := by
  intro st r s t hm hsid hl hk
  obtain ⟨s2, hs2, hne, htl⟩ := sessionLookup_some hl
  cases hs2
  rw [handleMcp_gate_open st r hk]
  cases hok : r.handleOk <;> simp [routeMcp, hm, hsid, hne, htl, hok]

/-- Witness for C3 amended: a resolving DELETE on a singleton table
empties it and reports delegation to the mapped transport. -/
theorem c3_delete_removal_witness :
    (handleMcp ⟨⟨"k", "", "", "", false, []⟩, [("sid", 3)], 5⟩
        ⟨HMethod.delete, some ("sid"), none, none, none, none, true⟩).1.transports = [] ∧
    (handleMcp ⟨⟨"k", "", "", "", false, []⟩, [("sid", 3)], 5⟩
        ⟨HMethod.delete, some ("sid"), none, none, none, none, true⟩).2 =
      McpResponse.delegated 3 true := by
  have h := c3_delete_removal ⟨⟨"k", "", "", "", false, []⟩, [("sid", 3)], 5⟩
      ⟨HMethod.delete, some ("sid"), none, none, none, none, true⟩ ("sid") 3
      rfl rfl (by decide) (by decide)
  refine ⟨?_, h.1⟩
  rw [h.2.1 rfl]
  decide

/-- C4: with the api key configured, a GET or DELETE whose session id is
missing, empty, or not a key of the table is answered with the 400
invalid-session error, and neither the table nor the transport allocator
changes. -/
theorem c4_invalid_session :
    ∀ st r, (r.method = HMethod.get ∨ r.method = HMethod.delete) →
      sessionLookup st.transports r.sessionId = none →
      effApiKey st r ≠ "" →
      (handleMcp st r).2 = McpResponse.invalidSession ∧
      (handleMcp st r).1.transports = st.transports ∧
      (handleMcp st r).1.nextT = st.nextT := by
  intro st r hmeth hl hk
  rw [handleMcp_gate_open st r hk]
  cases hmeth with
  | inl hm => simp [routeMcp, hm, hl]
  | inr hm =>
      cases hsid : r.sessionId with
      | none => simp [routeMcp, hm, hsid]
      | some s =>
          by_cases hs : s = ""
          · simp [routeMcp, hm, hsid, hs]
          · rw [hsid] at hl
            have htl : tblLookup st.transports s = none := by
              simpa [sessionLookup, hs] using hl
            simp [routeMcp, hm, hsid, hs, htl]

/-- Witness for C4: a GET with an unrecognized id on a server with the
api key set yields the invalid-session error. -/
theorem c4_invalid_session_witness :
    (handleMcp ⟨⟨"k", "", "", "", false, []⟩, [], 0⟩
        ⟨HMethod.get, some ("nope"), none, none, none, none, true⟩).2 =
      McpResponse.invalidSession :=
  (c4_invalid_session _ _ (Or.inl rfl) (by decide) (by decide)).1

/-- C5 counterexample: the get-code handler interpolates the content
field before testing it, so an absent content yields the text undefined
rather than any fallback, and even when its fallback does fire the
literal is No response text available, not No response data available. -/
theorem c5_counterexample :
    getCodeHandler (some ("Foo")) (RemoteOutcome.ok JsValue.undef) =
      HandlerOutcome.result ⟨"undefined"⟩ ∧
    ("undefined" : String) ≠ "No response data available" ∧
    getCodeHandler (some ("Foo")) (RemoteOutcome.ok (JsValue.str "")) =
      HandlerOutcome.result ⟨"No response text available"⟩ ∧
    ("No response text available" : String) ≠ "No response data available" := by
  decide

/-- C5 amended: on a successful remote call, the handlers of
find-direct-connections, nodes-semantic-search, folder-tree-structure
and get-usage-dependency-links return the content field as text,
substituting the literal No response data available whenever the field
is falsy; the get-code handler instead interpolates the content field,
so an absent or null field becomes the text undefined or null, and only
an empty interpolation triggers its fallback, which reads No response
text available. -/
theorem c5_success_texts :
    ∀ v p, strFalsy p = false →
      findDirectConnectionsHandler p (RemoteOutcome.ok v) =
        HandlerOutcome.result
          ⟨if jsFalsy v then "No response data available" else jsTemplate v⟩ ∧
      nodesSemanticSearchHandler p (RemoteOutcome.ok v) =
        HandlerOutcome.result
          ⟨if jsFalsy v then "No response data available" else jsTemplate v⟩ ∧
      folderTreeStructureHandler (RemoteOutcome.ok v) =
        HandlerOutcome.result
          ⟨if jsFalsy v then "No response data available" else jsTemplate v⟩ ∧
      getUsageDependencyLinksHandler p (RemoteOutcome.ok v) =
        HandlerOutcome.result
          ⟨if jsFalsy v then "No response data available" else jsTemplate v⟩ ∧
      getCodeHandler p (RemoteOutcome.ok v) =
        HandlerOutcome.result
          ⟨if jsTemplate v = "" then "No response text available"
            else jsTemplate v⟩ ∧
      getCodeHandler p (RemoteOutcome.ok JsValue.undef) =
        HandlerOutcome.result ⟨"undefined"⟩ ∧
      getCodeHandler p (RemoteOutcome.ok JsValue.nullv) =
        HandlerOutcome.result ⟨"null"⟩ := by
  intro v p hp
  refine ⟨?_, ?_, ?_, ?_, ?_, ?_, ?_⟩
  · simp [findDirectConnectionsHandler, textOrFallback, hp]
  · simp [nodesSemanticSearchHandler, textOrFallback, hp]
  · simp [folderTreeStructureHandler, textOrFallback]
  · simp [getUsageDependencyLinksHandler, textOrFallback, hp]
  · simp [getCodeHandler, templateOrFallback, strOrElse, hp]
  · simp [getCodeHandler, templateOrFallback, strOrElse, hp, jsTemplate]
  · simp [getCodeHandler, templateOrFallback, strOrElse, hp, jsTemplate]

/-- Witness for C5 amended: a falsy content field makes
find-direct-connections fall back to the literal, while get-code renders
an absent field as the text undefined. -/
theorem c5_success_texts_witness :
    findDirectConnectionsHandler (some ("Foo")) (RemoteOutcome.ok JsValue.undef) =
      HandlerOutcome.result ⟨"No response data available"⟩ ∧
    getCodeHandler (some ("Foo")) (RemoteOutcome.ok JsValue.nullv) =
      HandlerOutcome.result ⟨"null"⟩ := by
  have h := c5_success_texts JsValue.undef (some ("Foo")) (by decide)
  have h2 := c5_success_texts JsValue.nullv (some ("Foo")) (by decide)
  exact ⟨by simpa [jsFalsy] using h.1, h2.2.2.2.2.2.2⟩

/-- C6: when the single remote call of a handler fails (network error,
rejected fetch, or a non-JSON body), the handler still returns a
successful result envelope whose text is the string representation of
the error (prefixed for list-graphs); the failure is never rethrown, so
it cannot surface as a protocol-level error. -/
theorem c6_remote_failure :
    ∀ e name query, strFalsy name = false → strFalsy query = false →
      getCodeHandler name (RemoteOutcome.err e) = HandlerOutcome.result ⟨e⟩ ∧
      findDirectConnectionsHandler name (RemoteOutcome.err e) =
        HandlerOutcome.result ⟨e⟩ ∧
      nodesSemanticSearchHandler query (RemoteOutcome.err e) =
        HandlerOutcome.result ⟨e⟩ ∧
      docsSemanticSearchHandler query (RemoteOutcome.err e) =
        HandlerOutcome.result ⟨e⟩ ∧
      getUsageDependencyLinksHandler name (RemoteOutcome.err e) =
        HandlerOutcome.result ⟨e⟩ ∧
      folderTreeStructureHandler (RemoteOutcome.err e) =
        HandlerOutcome.result ⟨e⟩ ∧
      listGraphsHandler (RemoteOutcome.err e) =
        HandlerOutcome.result ⟨"Error fetching graphs: " ++ e⟩ := by
  intro e name query hn hq
  simp [getCodeHandler, findDirectConnectionsHandler,
        nodesSemanticSearchHandler, docsSemanticSearchHandler,
        getUsageDependencyLinksHandler, folderTreeStructureHandler,
        listGraphsHandler, hn, hq]

/-- Witness for C6: a simulated network failure of the
find-direct-connections remote call is still answered with a result
envelope carrying the error text. -/
theorem c6_remote_failure_witness :
    findDirectConnectionsHandler (some ("Foo"))
        (RemoteOutcome.err ("TypeError: fetch failed")) =
      HandlerOutcome.result ⟨"TypeError: fetch failed"⟩ :=
  (c6_remote_failure ("TypeError: fetch failed") (some ("Foo")) (some ("q"))
      (by decide) (by decide)).2.1

/-- C7: each handler with a required parameter throws its local
validation error synchronously when that parameter is absent or empty;
the outcome is the same whatever the remote collaborator would have
answered, so no network call is consulted. -/
theorem c7_required_param_guard :
    ∀ remote p, strFalsy p = true →
      getCodeHandler p remote = HandlerOutcome.thrown ("name is required") ∧
      findDirectConnectionsHandler p remote =
        HandlerOutcome.thrown ("name is required") ∧
      nodesSemanticSearchHandler p remote =
        HandlerOutcome.thrown ("query is required") ∧
      docsSemanticSearchHandler p remote =
        HandlerOutcome.thrown ("query is required") ∧
      getUsageDependencyLinksHandler p remote =
        HandlerOutcome.thrown ("name is required") := by
  intro remote p hp
  simp [getCodeHandler, findDirectConnectionsHandler,
        nodesSemanticSearchHandler, docsSemanticSearchHandler,
        getUsageDependencyLinksHandler, hp]

/-- Witness for C7: get-code with an absent name throws its local error
even though the remote would have answered. -/
theorem c7_required_param_guard_witness :
    getCodeHandler none (RemoteOutcome.ok (JsValue.str ("x"))) =
      HandlerOutcome.thrown ("name is required") :=
  (c7_required_param_guard (RemoteOutcome.ok (JsValue.str ("x"))) none rfl).1

/-- C8: list-graphs is in the registered tool set exactly when the
configured graph id, the configured repository url and multi-repo mode
are all unset at registration time; registerTools computes the set once
from the configuration it is given, so the set is not re-evaluated
afterwards. -/
theorem c8_list_graphs_iff :
    ∀ cfg : Config, ("list-graphs" ∈ registerTools cfg) ↔
      (cfg.CODEGPT_GRAPH_ID = "" ∧ cfg.CODEGPT_REPO_URL = "" ∧
       cfg.IS_MULTI_REPO = false) := by
  intro cfg
  by_cases h : cfg.CODEGPT_GRAPH_ID = "" ∧ cfg.CODEGPT_REPO_URL = "" ∧
      cfg.IS_MULTI_REPO = false
  · simp [registerTools, h]
  · simp only [registerTools, if_neg h]
    constructor
    · intro hmem
      exact absurd hmem (by decide)
    · intro hc
      exact absurd hc h

/-- C9 counterexample: a stdio invocation with two positional arguments
that both contain a slash, where the first also starts with sk-, does
not activate multi-repo mode: the sk- argument is taken as the api key,
leaving a single repository url, which is then stored in
CODEGPT_REPO_URL. -/
theorem c9_counterexample :
    (processCliArgs ⟨"", "", "", "", false, []⟩
        [("sk-a/b"), ("x/y")]).IS_MULTI_REPO = false ∧
    includesChar ("sk-a/b") '/' = true ∧
    includesChar ("x/y") '/' = true ∧
    (processCliArgs ⟨"", "", "", "", false, []⟩
        [("sk-a/b"), ("x/y")]).CODEGPT_REPO_URL = "x/y" ∧
    (processCliArgs ⟨"", "", "", "", false, []⟩
        [("sk-a/b"), ("x/y")]).CODEGPT_API_KEY = "sk-a/b" := by
  decide

/-- C9 amended: a stdio invocation with two positional arguments that
both contain a slash and neither of which starts with sk- activates
multi-repo mode, stores both arguments in the repository list, and
leaves CODEGPT_REPO_URL untouched (so no single repository url is set by
argument processing). -/
theorem c9_multi_repo :
    ∀ cfg a b, includesChar a '/' = true → includesChar b '/' = true →
      startsWith3 a 's' 'k' '-' = false → startsWith3 b 's' 'k' '-' = false →
      (processCliArgs cfg [a, b]).IS_MULTI_REPO = true ∧
      (processCliArgs cfg [a, b]).REPO_LIST = [a, b] ∧
      (processCliArgs cfg [a, b]).CODEGPT_REPO_URL = cfg.CODEGPT_REPO_URL := by
  intro cfg a b ha hb hsa hsb
  have ha2 : isRepoArg a = true := by simp [isRepoArg, ha, hsa]
  have hb2 : isRepoArg b = true := by simp [isRepoArg, hb, hsb]
  refine ⟨?_, ?_, ?_⟩ <;> simp [processCliArgs, List.filter, ha2, hb2]

/-- Witness for C9 amended: two plain org/repo arguments activate
multi-repo mode and populate the repository list. -/
theorem c9_multi_repo_witness :
    (processCliArgs ⟨"", "", "", "", false, []⟩
        [("org/alpha"), ("org/beta")]).IS_MULTI_REPO = true ∧
    (processCliArgs ⟨"", "", "", "", false, []⟩
        [("org/alpha"), ("org/beta")]).REPO_LIST = [("org/alpha"), ("org/beta")] ∧
    (processCliArgs ⟨"", "", "", "", false, []⟩
        [("org/alpha"), ("org/beta")]).CODEGPT_REPO_URL = "" :=
  c9_multi_repo ⟨"", "", "", "", false, []⟩ ("org/alpha") ("org/beta")
    (by decide) (by decide) (by decide) (by decide)

/-- C10: each of the four config query overrides is written over the
process-wide configuration exactly when its value is a present nonempty
string — an absent or empty value keeps the previous one — and the
written configuration is the one persisted in the server state, so a
later request without an override still passes the credential gate on
the earlier key. -/
theorem c10_query_overrides :
    (∀ st r, (handleMcp st r).1.config = overrideConfig st.config r) ∧
    (∀ cur, applyQ none cur = cur ∧ applyQ (some "") cur = cur) ∧
    (∀ s cur, s ≠ "" → applyQ (some s) cur = s) ∧
    (∀ st r1 r2 k, r1.qApiKey = some k → k ≠ "" → r2.qApiKey = none →
      (handleMcp (handleMcp st r1).1 r2).1.config.CODEGPT_API_KEY = k ∧
      (handleMcp (handleMcp st r1).1 r2).2 ≠ McpResponse.apiKeyRequired) := by
  refine ⟨handleMcp_config, ?_, ?_, ?_⟩
  · intro cur
    exact ⟨rfl, rfl⟩
  · intro s cur hs
    simp [applyQ, hs]
  · intro st r1 r2 k h1 hk h2
    have e1 : (handleMcp st r1).1.config.CODEGPT_API_KEY = k := by
      rw [handleMcp_config]
      simp [overrideConfig, applyQ, h1, hk]
    have e2 : effApiKey (handleMcp st r1).1 r2 = k := by
      simp [effApiKey, h2, applyQ, e1]
    constructor
    · rw [handleMcp_config]
      simp [overrideConfig, applyQ, h2, e1]
    · rw [handleMcp_gate_open _ _ (by rw [e2]; exact hk)]
      exact routeMcp_ne_apiKeyRequired _ _

/-- Witness for C10: a first request carrying the key in its query makes
a second request without any override pass the credential gate. -/
theorem c10_query_overrides_witness :
    (handleMcp (handleMcp ⟨⟨"", "", "", "", false, []⟩, [], 0⟩
        ⟨HMethod.get, none, some ("k1"), none, none, none, true⟩).1
        ⟨HMethod.get, none, none, none, none, none, true⟩).1.config.CODEGPT_API_KEY =
      "k1" ∧
    (handleMcp (handleMcp ⟨⟨"", "", "", "", false, []⟩, [], 0⟩
        ⟨HMethod.get, none, some ("k1"), none, none, none, true⟩).1
        ⟨HMethod.get, none, none, none, none, none, true⟩).2 ≠
      McpResponse.apiKeyRequired :=
  c10_query_overrides.2.2.2 ⟨⟨"", "", "", "", false, []⟩, [], 0⟩
    ⟨HMethod.get, none, some ("k1"), none, none, none, true⟩
    ⟨HMethod.get, none, none, none, none, none, true⟩ ("k1")
    rfl (by decide) rfl

end Mcp
